import Mathlib

set_option maxHeartbeats 4000000
set_option maxRecDepth 100000

attribute [local semireducible] Rat.add Rat.mul Rat.sub Rat.inv Rat.ofScientific

/-!
Verification of the bus-tracker telemetry decode-and-forward pipeline.

The Python sources are embedded shallowly:
* strings are `List Char` (`Chars`), Python floats are `ℚ` (all payloads in
  scope are short decimal numerals, exactly representable),
* fallible Python operations (`float(...)`, `int(...)`, `json.loads`) return
  `Option`/`Except`, mirroring the `try/except` blocks of the source,
* the wall-clock receipt time produced by `datetime.now().strftime(...)` is an
  explicit `Nat` parameter (one value per formatted second).
-/

abbrev Chars := List Char

/-- ASCII decimal digit, as recognised by Python `float`/`int` parsing. -/
def pyIsDigit (c : Char) : Bool := 48 ≤ c.toNat && c.toNat ≤ 57

/-- Whitespace stripped by Python `str.strip` / accepted around numerals. -/
def pyIsSpace (c : Char) : Bool := c.toNat = 32 || (9 ≤ c.toNat && c.toNat ≤ 13)

/-- Python `str.strip()`: drop whitespace from both ends. -/
def pyStrip (l : Chars) : Chars :=
  ((l.dropWhile pyIsSpace).reverse.dropWhile pyIsSpace).reverse

/-- Value of a digit string (most significant first). -/
def digitsToNat (l : Chars) : Nat := l.foldl (fun a c => 10 * a + (c.toNat - 48)) 0

/-- Fractional value of the digit string after a decimal point. -/
def fracValue (l : Chars) : ℚ := (digitsToNat l : ℚ) / ((10 : ℚ) ^ l.length)

/-- Python `float(s)`: optional surrounding whitespace, optional sign, then
`digits`, `digits.digits`, `digits.` or `.digits` (exponents, `inf`, `nan`
and underscore separators are outside the modelled domain). -/
def pyFloat (s : Chars) : Option ℚ :=
  let l := pyStrip s
  let sr : ℚ × Chars :=
    match l with
    | '+' :: r => (1, r)
    | '-' :: r => (-1, r)
    | _ => (1, l)
  let ip := sr.2.takeWhile pyIsDigit
  let r2 := sr.2.dropWhile pyIsDigit
  match r2 with
  | [] => if ip = [] then none else some (sr.1 * (digitsToNat ip : ℚ))
  | '.' :: r3 =>
    let fp := r3.takeWhile pyIsDigit
    let r4 := r3.dropWhile pyIsDigit
    if r4 = [] ∧ (ip ≠ [] ∨ fp ≠ []) then
      some (sr.1 * ((digitsToNat ip : ℚ) + fracValue fp))
    else none
  | _ => none

/-- Python `int(s)`: optional surrounding whitespace, optional sign, digits. -/
def pyInt (s : Chars) : Option Int :=
  let l := pyStrip s
  let sr : Int × Chars :=
    match l with
    | '+' :: r => (1, r)
    | '-' :: r => (-1, r)
    | _ => (1, l)
  if sr.2 ≠ [] ∧ sr.2.all pyIsDigit then some (sr.1 * (digitsToNat sr.2 : Int))
  else none

/-- Python `int(x)` applied to a float: truncation toward zero. -/
def pyTrunc (q : ℚ) : Int := if 0 ≤ q then ⌊q⌋ else -⌊-q⌋

/-- Python `s.split(sep)`: splits at every separator, keeping empty fields. -/
def splitChars (l : Chars) (sep : Char) : List Chars :=
  match l with
  | [] => [[]]
  | c :: rest =>
    let r := splitChars rest sep
    if c = sep then [] :: r
    else
      match r with
      | h :: t => (c :: h) :: t
      | [] => [[c]]

/-- Python `s.find(c)` under the guarantee that `c` occurs in `s`. -/
def firstIdxD (l : Chars) (c : Char) : Nat := l.findIdx (· = c)

/-- Python `s.rfind(c)` under the guarantee that `c` occurs in `s`. -/
def lastIdxD (l : Chars) (c : Char) : Nat := l.length - 1 - l.reverse.findIdx (· = c)

/-- One match of the regular expression `[-+]?\d*\.\d+` at the head of the
input (greedy, as the Python `re` engine resolves it): optional sign, maximal
run of digits, a mandatory dot, then a maximal nonempty run of digits.
Returns the matched value and the remaining input. -/
def matchNum (l : Chars) : Option (ℚ × Chars) :=
  let sr : ℚ × Chars :=
    match l with
    | '+' :: r => (1, r)
    | '-' :: r => (-1, r)
    | _ => (1, l)
  let ip := sr.2.takeWhile pyIsDigit
  match sr.2.dropWhile pyIsDigit with
  | '.' :: r3 =>
    let fp := r3.takeWhile pyIsDigit
    if fp = [] then none
    else some (sr.1 * ((digitsToNat ip : ℚ) + fracValue fp), r3.dropWhile pyIsDigit)
  | _ => none

/-- Scanner of `re.findall(r'[-+]?\d*\.\d+', s)`: left-to-right,
non-overlapping; on failure advance one character.  `fuel` bounds the number
of scan steps (each step consumes at least one character). -/
def scanAux : Nat → Chars → List ℚ
  | 0, _ => []
  | _ + 1, [] => []
  | fuel + 1, c :: rest =>
    match matchNum (c :: rest) with
    | some (q, r) => q :: scanAux fuel r
    | none => scanAux fuel rest

/-- All matches of `[-+]?\d*\.\d+` in `s`, in order. -/
def scanNumbers (s : Chars) : List ℚ := scanAux s.length s

/-- A JSON primitive value.  `json.loads` is modelled for flat objects whose
values are primitives, which covers every payload format this pipeline is fed;
nested documents are treated as parse failures. -/
inductive JVal where
  | null : JVal
  | jbool : Bool → JVal
  | num : ℚ → JVal
  | str : Chars → JVal
deriving DecidableEq

/-- JSON whitespace. -/
def jsonWs (c : Char) : Bool := c = ' ' || c = '\t' || c = '\n' || c = '\r'

def skipWs (l : Chars) : Chars := l.dropWhile jsonWs

/-- JSON escape characters (the `\uXXXX` form is outside the modelled domain). -/
def escChar (c : Char) : Option Char :=
  match c with
  | '"' => some '"'
  | '\\' => some '\\'
  | '/' => some '/'
  | 'n' => some '\n'
  | 't' => some '\t'
  | 'r' => some '\r'
  | 'b' => some '\x08'
  | 'f' => some '\x0c'
  | _ => none

/-- Body of a JSON string after the opening quote; returns contents and rest. -/
def jStrAux : Chars → Option (Chars × Chars)
  | [] => none
  | '"' :: r => some ([], r)
  | '\\' :: e :: r =>
    match escChar e with
    | some c => (jStrAux r).map (fun p => (c :: p.1, p.2))
    | none => none
  | c :: r => (jStrAux r).map (fun p => (c :: p.1, p.2))

/-- A JSON number (no exponents): optional minus, integer part without a
superfluous leading zero, optional fraction. -/
def parseJNum (l : Chars) : Option (ℚ × Chars) :=
  let sr : ℚ × Chars :=
    match l with
    | '-' :: r => (-1, r)
    | _ => (1, l)
  let ip := sr.2.takeWhile pyIsDigit
  if ip = [] then none
  else if 1 < ip.length ∧ ip.headD ' ' = '0' then none
  else
    match sr.2.dropWhile pyIsDigit with
    | '.' :: r3 =>
      let fp := r3.takeWhile pyIsDigit
      if fp = [] then none
      else some (sr.1 * ((digitsToNat ip : ℚ) + fracValue fp), r3.dropWhile pyIsDigit)
    | r2 => some (sr.1 * (digitsToNat ip : ℚ), r2)

/-- A primitive JSON value. -/
def parseJVal (l : Chars) : Option (JVal × Chars) :=
  match l with
  | 'n' :: 'u' :: 'l' :: 'l' :: r => some (.null, r)
  | 't' :: 'r' :: 'u' :: 'e' :: r => some (.jbool true, r)
  | 'f' :: 'a' :: 'l' :: 's' :: 'e' :: r => some (.jbool false, r)
  | '"' :: r => (jStrAux r).map (fun p => (.str p.1, p.2))
  | _ => (parseJNum l).map (fun p => (.num p.1, p.2))

/-- Members of a JSON object after the opening brace (at least one member). -/
def jMembersAux : Nat → Chars → List (Chars × JVal) → Option (List (Chars × JVal) × Chars)
  | 0, _, _ => none
  | fuel + 1, l, acc =>
    match skipWs l with
    | '"' :: r =>
      match jStrAux r with
      | none => none
      | some (key, r2) =>
        match skipWs r2 with
        | ':' :: r3 =>
          match parseJVal (skipWs r3) with
          | none => none
          | some (v, r4) =>
            match skipWs r4 with
            | ',' :: r5 => jMembersAux fuel r5 (acc ++ [(key, v)])
            | '\x7d' :: r5 => some (acc ++ [(key, v)], r5)
            | _ => none
        | _ => none
    | _ => none

/-- Model of Python `json.loads` on a full string that must be one flat JSON
object (plus surrounding whitespace). -/
def jsonLoads (s : Chars) : Option (List (Chars × JVal)) :=
  match skipWs s with
  | '\x7b' :: r =>
    match skipWs r with
    | '\x7d' :: r2 => if skipWs r2 = [] then some [] else none
    | _ =>
      match jMembersAux s.length r [] with
      | some (kvs, rest) => if skipWs rest = [] then some kvs else none
      | none => none
  | _ => none

/-- Python `key in data` on a parsed JSON object. -/
def jHas (d : List (Chars × JVal)) (k : Chars) : Bool := d.any (fun p => p.1 == k)

/-- Python `data[key]`; duplicate keys resolve to the last occurrence, as in
a Python dict built by `json.loads`. -/
def jGetD (d : List (Chars × JVal)) (k : Chars) : JVal :=
  ((d.reverse.find? (fun p => p.1 == k)).map (fun p => p.2)).getD .null

/-- Python `float(x)` on a value decoded from JSON. -/
def pyFloatOfJVal : JVal → Option ℚ
  | .num q => some q
  | .str s => pyFloat s
  | .jbool b => some (if b then 1 else 0)
  | .null => none

/-- Python `int(x)` on a value decoded from JSON. -/
def pyIntOfJVal : JVal → Option Int
  | .num q => some (pyTrunc q)
  | .str s => pyInt s
  | .jbool b => some (if b then 1 else 0)
  | .null => none

/-!
## `pi3_sx127x_receiver.py` — the PayloadDecoder and Forwarder

`LoRaReceiver.parse_gps_data` is the ordered fallback chain of the spec's
PayloadDecoder (delimited fields, then structured object, then free-text
numeric scan); `LoRaReceiver.send_to_server` is the Forwarder; `on_rx_done`
holds the ChangeFilter/forward logic, which is byte-for-byte the same
duplicate-suppression logic as the inner loop of `pi3_lora_receiver.main`.
-/

namespace SX

/-- The canonical record built by `parse_gps_data` (the Python dict always
carries exactly these five keys; `busId` can hold an arbitrary JSON value
copied verbatim from a structured payload). -/
structure GpsData where
  busId : JVal
  latitude : ℚ
  longitude : ℚ
  signalStrength : Int
  timestamp : Nat
deriving DecidableEq

/-- The freshly initialised record of `parse_gps_data` (its default dict). -/
def defaultGps (t : Nat) : GpsData :=
  { busId := JVal.str ("BUS001".toList), latitude := 0, longitude := 0
    signalStrength := 85, timestamp := t }

/-- Attempt 1 of `parse_gps_data`: parse as CSV.  Mirrors the mutation order
of the source: a field that fails numeric parsing raises `ValueError`, caught
by the strategy's `except`, leaving the earlier assignments in place and
`parsed` false. -/
def attempt1 (s : Chars) (g : GpsData) : GpsData × Bool :=
  let parts := splitChars s ','
  if parts.length = 2 then
    match pyFloat (parts.getD 0 []) with
    | none => (g, false)
    | some la =>
      let g1 := { g with latitude := la }
      match pyFloat (parts.getD 1 []) with
      | none => (g1, false)
      | some lo => ({ g1 with longitude := lo }, true)
  else if 3 ≤ parts.length then
    let g1 := { g with busId := JVal.str (if parts.getD 0 [] = [] then "BUS001".toList else pyStrip (parts.getD 0 [])) }
    match pyFloat (parts.getD 1 []) with
    | none => (g1, false)
    | some la =>
      let g2 := { g1 with latitude := la }
      match pyFloat (parts.getD 2 []) with
      | none => (g2, false)
      | some lo =>
        let g3 := { g2 with longitude := lo }
        if 3 < parts.length then
          match pyInt (parts.getD 3 []) with
          | none => (g3, false)
          | some k => ({ g3 with signalStrength := k }, true)
        else (g3, true)
  else (g, false)

/-- `gps_data['latitude'] = float(data['latitude'])` when the key is present;
`none` models the `ValueError` aborting the JSON strategy. -/
def trySetLat (d : List (Chars × JVal)) (g : GpsData) : Option GpsData :=
  if jHas d ("latitude".toList) then
    (pyFloatOfJVal (jGetD d ("latitude".toList))).map (fun v => { g with latitude := v })
  else some g

def trySetLng (d : List (Chars × JVal)) (g : GpsData) : Option GpsData :=
  if jHas d ("longitude".toList) then
    (pyFloatOfJVal (jGetD d ("longitude".toList))).map (fun v => { g with longitude := v })
  else some g

def trySetSig (d : List (Chars × JVal)) (g : GpsData) : Option GpsData :=
  if jHas d ("signalStrength".toList) then
    (pyIntOfJVal (jGetD d ("signalStrength".toList))).map (fun v => { g with signalStrength := v })
  else some g

/-- Attempt 2 of `parse_gps_data`: slice from the first object-open marker to
the last object-close marker and parse as JSON.  Key copies happen in source
order (`busID`, `busId`, `latitude`, `longitude`, `signalStrength`); a failed
coercion leaves the earlier copies in place with `parsed` false. -/
def attempt2 (s : Chars) (g : GpsData) : GpsData × Bool :=
  let i := firstIdxD s '\x7b'
  let j := lastIdxD s '\x7d'
  let sub := (s.drop i).take (j + 1 - i)
  match jsonLoads sub with
  | none => (g, false)
  | some d =>
    let g1 := if jHas d ("busID".toList) then { g with busId := jGetD d ("busID".toList) } else g
    let g2 := if jHas d ("busId".toList) then { g1 with busId := jGetD d ("busId".toList) } else g1
    match trySetLat d g2 with
    | none => (g2, false)
    | some g3 =>
      match trySetLng d g3 with
      | none => (g3, false)
      | some g4 =>
        match trySetSig d g4 with
        | none => (g4, false)
        | some g5 => (g5, true)

/-- Attempt 3 of `parse_gps_data`: regex scan of the whole payload, run when
nothing parsed yet or the latitude is still `0`; overwrites latitude and
longitude with the first two matches when at least two exist. -/
def attempt3 (s : Chars) (gp : GpsData × Bool) : GpsData × Bool :=
  if !gp.2 || gp.1.latitude == 0 then
    match scanNumbers s with
    | n0 :: n1 :: _ => ({ gp.1 with latitude := n0, longitude := n1 }, true)
    | _ => gp
  else gp

/-- The three decode attempts of `parse_gps_data` in source order, applied to
the stripped payload: attempt 1 runs on comma-delimited payloads without an
object marker, attempt 2 on unparsed payloads with object markers, attempt 3
whenever nothing parsed or the latitude is still `0`. -/
def decodeAttempts (s : Chars) (t : Nat) : GpsData × Bool :=
  let r1 := if s.contains ',' && !s.contains '\x7b' then attempt1 s (defaultGps t) else (defaultGps t, false)
  let r2 := if !r1.2 && s.contains '\x7b' && s.contains '\x7d' then attempt2 s r1.1 else r1
  attempt3 s r2

/-- `LoRaReceiver.parse_gps_data`: strip the payload, run the three decode
attempts in order, and return the record only if something parsed and the
coordinate pair is not the `(0,0)` sentinel.  `t` is the receipt time. -/
def parse_gps_data (raw : Chars) (t : Nat) : Option GpsData :=
  let r3 := decodeAttempts (pyStrip raw) t
  if r3.2 && (r3.1.latitude != 0 || r3.1.longitude != 0) then some r3.1 else none

/-- The collector's observable behaviour for one POST: a response with some
status code, or a raised request error (timeout, connection refused, ...). -/
inductive HttpOutcome where
  | response : Nat → HttpOutcome
  | requestError : HttpOutcome
deriving DecidableEq

/-- `send_to_server`: `True` exactly when the request does not raise and the
response status equals 200; every raised error is caught and yields `False`. -/
def send_to_server (_gps_data : GpsData) (o : HttpOutcome) : Bool :=
  match o with
  | .response status => status == 200
  | .requestError => false

/-- The per-iteration outcome of the receive loop, as printed by the source. -/
inductive TickResult where
  | noData : TickResult
  | decodeError : TickResult
  | duplicate : TickResult
  | forwarded : GpsData → TickResult
  | sendFailed : GpsData → TickResult
deriving DecidableEq

def isForwarded : TickResult → Bool
  | .forwarded _ => true
  | _ => false

/-- The mutable loop state: `last_data` and `data_count`. -/
structure PipeState where
  lastData : Option GpsData
  dataCount : Nat
deriving DecidableEq

/-- One iteration of the receive-decode-filter-forward loop (`on_rx_done` in
`pi3_sx127x_receiver.py`; identically the inner body of `main` in
`pi3_lora_receiver.py`): decode failures are absorbed as `None`, a record
equal to `last_data` is suppressed, and `last_data` is updated only when
`send_to_server` reports success. -/
def pipeStep (st : PipeState) (payload : Option Chars) (t : Nat) (o : HttpOutcome) :
    PipeState × TickResult :=
  match payload with
  | none => (st, .noData)
  | some raw =>
    match parse_gps_data raw t with
    | none => (st, .decodeError)
    | some g =>
      if st.lastData = some g then (st, .duplicate)
      else
        let st1 : PipeState := { st with dataCount := st.dataCount + 1 }
        if send_to_server g o then ({ st1 with lastData := some g }, .forwarded g)
        else (st1, .sendFailed g)

/-- The polling loop over a finite schedule of ticks; each tick supplies the
available payload (if any), the receipt time, and the collector's behaviour. -/
def pipeRun (st : PipeState) : List (Option Chars × Nat × HttpOutcome) → PipeState × List TickResult
  | [] => (st, [])
  | (p, t, o) :: rest =>
    let sr := pipeStep st p t o
    let fin := pipeRun sr.1 rest
    (fin.1, sr.2 :: fin.2)

/-- `main` runs the polling loop only when the startup server test succeeded
and a serial device was found; otherwise it returns before the loop. -/
def startupRuns (serverOk : Bool) (sourceFound : Bool) : Bool := serverOk && sourceFound

/-- The fields of a record that do not depend on the receipt clock. -/
def stripTime (g : GpsData) : JVal × ℚ × ℚ × Int :=
  (g.busId, g.latitude, g.longitude, g.signalStrength)

/-- Replace the receipt timestamp of a record. -/
def tset (t : Nat) (g : GpsData) : GpsData := { g with timestamp := t }

end SX

/-!
## `NEW.py` — the CoordinateConverter

`convert_to_degrees` turns an NMEA degree/minute string plus hemisphere letter
into signed decimal degrees; any parse failure is caught and yields `None`.
-/

namespace NEWPy

/-- `convert_to_degrees(raw, direction)`: `int(raw[:2])` whole degrees,
`float(raw[2:])` minutes, negated for the `S`/`W` hemispheres; the bare
`except` turns every parse failure into `None`. -/
def convert_to_degrees (raw : Chars) (direction : Chars) : Option ℚ :=
  match pyInt (raw.take 2), pyFloat (raw.drop 2) with
  | some deg, some mins =>
    let val : ℚ := (deg : ℚ) + mins / 60
    some (if direction = "S".toList ∨ direction = "W".toList then -val else val)
  | _, _ => none

end NEWPy

/-!
## `simple_lora_transmitter.py` — the SentenceParser

`parse_nmea` classifies a raw sentence line and produces the record a valid
fix yields; its own `convert_to_degrees` differs from `NEW.py`'s by requiring
`len(raw) > 7` and by running outside any `try`, so a numeric failure inside
it raises into `parse_nmea`'s handler (`Except.error` below), while a short
or empty input merely returns `None` (`Except.ok none`).
-/

namespace SimpleTx

/-- `convert_to_degrees` of `simple_lora_transmitter.py`. -/
def convert_to_degrees (raw : Chars) (direction : Chars) : Except Unit (Option ℚ) :=
  if raw = [] then .ok none
  else if 7 < raw.length then
    match pyInt (raw.take 2), pyFloat (raw.drop 2) with
    | some degrees, some minutes =>
      let decimal : ℚ := (degrees : ℚ) + minutes / 60
      .ok (some (if direction = "S".toList ∨ direction = "W".toList then -decimal else decimal))
    | _, _ => .error ()
  else .ok none

/-- The record `parse_nmea` returns: a GGA dict carries `satellites`, an RMC
dict carries `speed`; both always carry `fix = true`. -/
structure NmeaFix where
  latitude : ℚ
  longitude : ℚ
  time : Chars
  fix : Bool
  satellites : Option Int
  speed : Option ℚ
deriving DecidableEq

/-- `parse_nmea(sentence)`.  Notable source behaviours kept by the model:
lines not starting with `$` are rejected up front; a `$GPGGA` line with
exactly six fields raises `IndexError` on the fix-quality access (absorbed to
`None`); `if latitude and longitude` treats a zero coordinate as falsy; the
satellite count `int(data[7])` may raise (absorbed to `None`). -/
def parse_nmea (sentence : Chars) : Option NmeaFix :=
  if sentence.headD ' ' ≠ '$' then none
  else
    let data := splitChars sentence ','
    if data.getD 0 [] = "$GPGGA".toList ∧ 6 ≤ data.length then
      match data.get? 6 with
      | none => none
      | some fix_quality =>
        let lat_raw := data.getD 2 []
        let lat_dir := data.getD 3 []
        let lon_raw := data.getD 4 []
        let lon_dir := data.getD 5 []
        if fix_quality = "0".toList ∨ lat_raw = [] ∨ lon_raw = [] then none
        else
          match convert_to_degrees lat_raw lat_dir with
          | .error _ => none
          | .ok latitude =>
            match convert_to_degrees lon_raw lon_dir with
            | .error _ => none
            | .ok longitude =>
              match latitude, longitude with
              | some la, some lo =>
                if la ≠ 0 ∧ lo ≠ 0 then
                  match (if 7 < data.length ∧ data.getD 7 [] ≠ [] then pyInt (data.getD 7 []) else some 0) with
                  | none => none
                  | some sats =>
                    some { latitude := la, longitude := lo, time := data.getD 1 []
                           fix := true, satellites := some sats, speed := none }
                else none
              | _, _ => none
    else if data.getD 0 [] = "$GPRMC".toList ∧ 7 ≤ data.length then
      let time_str := data.getD 1 []
      let status := data.getD 2 []
      let lat_raw := data.getD 3 []
      let lat_dir := data.getD 4 []
      let lon_raw := data.getD 5 []
      let lon_dir := data.getD 6 []
      let speed_knots := if 7 < data.length then data.getD 7 [] else "0".toList
      if status ≠ "A".toList ∨ lat_raw = [] ∨ lon_raw = [] then none
      else
        match convert_to_degrees lat_raw lat_dir with
        | .error _ => none
        | .ok latitude =>
          match convert_to_degrees lon_raw lon_dir with
          | .error _ => none
          | .ok longitude =>
            match latitude, longitude with
            | some la, some lo =>
              if la ≠ 0 ∧ lo ≠ 0 then
                match (if speed_knots ≠ [] then (pyFloat speed_knots).map (fun v => v * (1852 / 1000 : ℚ)) else some 0) with
                | none => none
                | some speed_kmh =>
                  some { latitude := la, longitude := lo, time := time_str
                         fix := true, satellites := none, speed := some speed_kmh }
              else none
            | _, _ => none
    else none

end SimpleTx

/-!
## Shared lemmas
-/

/-- Any record returned by the decoder has a coordinate pair other than the
`(0,0)` NOT-FIXED sentinel: the final guard of `parse_gps_data`. -/
theorem parse_gps_data_nonzero (raw : Chars) (t : Nat) (r : SX.GpsData)
    (h : SX.parse_gps_data raw t = some r) :
    r.latitude ≠ 0 ∨ r.longitude ≠ 0 := by
  unfold SX.parse_gps_data at h
  dsimp only [] at h
  generalize hp : SX.decodeAttempts (pyStrip raw) t = p at h
  split at h
  · rename_i hcond
    injection h with h
    subst h
    exact (by simpa [Bool.and_eq_true, Bool.or_eq_true, bne_iff_ne] using hcond :
      p.2 = true ∧ (¬p.1.latitude = 0 ∨ ¬p.1.longitude = 0)).2
  · exact absurd h (by simp)

/-!
## Claim C4
-/

/-- Claim C4: if the decoded coordinate pair is the NOT-FIXED sentinel
`(0,0)`, `parse_gps_data` returns `None`; consequently every record the loop
hands to the duplicate filter, and every record it forwards (or attempts to
forward) to the collector, has a coordinate pair other than `(0,0)`. -/
theorem no_origin_record_emitted :
    (∀ (raw : Chars) (t : Nat) (r : SX.GpsData),
        SX.parse_gps_data raw t = some r → r.latitude ≠ 0 ∨ r.longitude ≠ 0)
    ∧ (∀ (st : SX.PipeState) (pay : Option Chars) (t : Nat) (o : SX.HttpOutcome) (g : SX.GpsData),
        ((SX.pipeStep st pay t o).2 = SX.TickResult.forwarded g ∨
          (SX.pipeStep st pay t o).2 = SX.TickResult.sendFailed g) →
        g.latitude ≠ 0 ∨ g.longitude ≠ 0) := by
  constructor
  · exact parse_gps_data_nonzero
  · intro st pay t o g h
    cases pay with
    | none => simp [SX.pipeStep] at h
    | some raw =>
      unfold SX.pipeStep at h
      dsimp only [] at h
      cases hparse : SX.parse_gps_data raw t with
      | none => rw [hparse] at h; simp at h
      | some g' =>
        rw [hparse] at h
        dsimp only [] at h
        by_cases hd : st.lastData = some g'
        · simp [hd] at h
        · cases hsend : SX.send_to_server g' o with
          | true =>
            simp [hd, hsend] at h
            subst h
            exact parse_gps_data_nonzero raw t _ hparse
          | false =>
            simp [hd, hsend] at h
            subst h
            exact parse_gps_data_nonzero raw t _ hparse

/-- Witness for C4 at the record decoded from `BUS001,40.7128,-74.0060`. -/
theorem no_origin_record_emitted_witness :
    ({ busId := JVal.str ("BUS001".toList), latitude := 50891/1250, longitude := -37003/500,
        signalStrength := 85, timestamp := 0 } : SX.GpsData).latitude ≠ 0 ∨
    ({ busId := JVal.str ("BUS001".toList), latitude := 50891/1250, longitude := -37003/500,
        signalStrength := 85, timestamp := 0 } : SX.GpsData).longitude ≠ 0 :=
  no_origin_record_emitted.1 ("BUS001,40.7128,-74.0060".toList) 0 _ (by decide)

/-!
## Claim C9
-/

/-- Counterexample to claim C9 as stated: `0.0,0.0` is a delimited payload of
exactly two numeric fields, yet `parse_gps_data` yields `None` (the `(0,0)`
NOT-FIXED guard), not a record carrying those coordinates. -/
theorem two_field_origin_cex : SX.parse_gps_data ("0.0,0.0".toList) 0 = none := by decide

/-- Claim C9 (amended): a delimited payload of exactly two numeric fields
whose first field parses to a nonzero value decodes to a record with the
default sourceId `BUS001`, the two fields as (latitude, longitude), and the
default signal strength; a payload whose two fields both parse to zero yields
`None` instead (the NOT-FIXED sentinel, see `two_field_origin_cex`). -/
theorem two_field_payload_decodes (raw : Chars) (t : Nat) (f0 f1 : Chars) (a b : ℚ)
    (hs : (pyStrip raw).contains ',' = true)
    (hb : (pyStrip raw).contains '\x7b' = false)
    (hsplit : splitChars (pyStrip raw) ',' = [f0, f1])
    (ha : pyFloat f0 = some a) (hb1 : pyFloat f1 = some b) (hnz : a ≠ 0) :
    SX.parse_gps_data raw t =
      some { busId := JVal.str ("BUS001".toList), latitude := a, longitude := b,
             signalStrength := 85, timestamp := t } := by
  unfold SX.parse_gps_data SX.decodeAttempts SX.attempt1 SX.attempt3
  dsimp only []
  rw [hs, hb, hsplit]
  simp only [Bool.not_false, Bool.and_self, if_true, List.length_cons, List.length_nil,
    List.getD_cons_zero, List.getD_cons_succ, SX.defaultGps]
  rw [ha, hb1]
  dsimp only []
  simp [hnz, beq_iff_eq, bne_iff_ne]

/-- Witness for C9 at the payload `40.7128,-74.0060` of the spec's test. -/
theorem two_field_payload_decodes_witness :
    SX.parse_gps_data ("40.7128,-74.0060".toList) 7 =
      some { busId := JVal.str ("BUS001".toList), latitude := 50891/1250,
             longitude := -37003/500, signalStrength := 85, timestamp := 7 } :=
  two_field_payload_decodes ("40.7128,-74.0060".toList) 7 ("40.7128".toList)
    ("-74.0060".toList) (50891/1250) (-37003/500)
    (by decide) (by decide) (by decide) (by decide) (by decide) (by decide)

/-!
## Claim C8
-/

/-- Counterexample to claim C8 as stated: in `ABC,12.5,xyz,7.7` the third
field fails numeric parsing, so the delimited strategy is abandoned — yet its
partial work is not discarded: the record that the free-text scan completes
still carries the sourceId `ABC` written by the aborted strategy, not the
default `BUS001` it would carry had the strategy contributed nothing. -/
theorem csv_residue_cex :
    SX.parse_gps_data ("ABC,12.5,xyz,7.7".toList) 0 =
      some { busId := JVal.str ("ABC".toList), latitude := 25/2, longitude := 77/10,
             signalStrength := 85, timestamp := 0 } ∧
    JVal.str ("ABC".toList) ≠ JVal.str ("BUS001".toList) :=
  ⟨by decide, by decide⟩

/-- Claim C8 (amended): on a delimited payload (field delimiter present, no
object markers) whose delimited-fields strategy aborts on a failed numeric
parse, the decode as a whole does not fail: the structured-object strategy is
skipped (such a payload has no object marker to trigger it) and the free-text
numeric scan still runs, determining the coordinates from the first two
numerals of the payload — but the aborted strategy's partial field
assignments (sourceId, possibly latitude) persist in the record it builds. -/
theorem csv_abort_falls_through (raw : Chars) (t : Nat)
    (hs : (pyStrip raw).contains ',' = true)
    (hb : (pyStrip raw).contains '\x7b' = false)
    (habort : (SX.attempt1 (pyStrip raw) (SX.defaultGps t)).2 = false) :
    SX.parse_gps_data raw t =
      match scanNumbers (pyStrip raw) with
      | n0 :: n1 :: _ =>
        if n0 ≠ 0 ∨ n1 ≠ 0 then
          some { (SX.attempt1 (pyStrip raw) (SX.defaultGps t)).1 with
                 latitude := n0, longitude := n1 }
        else none
      | _ => none := by
  unfold SX.parse_gps_data SX.decodeAttempts SX.attempt3
  dsimp only []
  rw [hs, hb]
  simp only [habort, Bool.not_false, Bool.and_self, Bool.and_false, Bool.false_and,
    Bool.and_true, Bool.true_and, if_true, if_false, Bool.false_eq_true, Bool.true_or,
    Bool.or_true, ite_false, ite_true]
  cases hscan : scanNumbers (pyStrip raw) with
  | nil => simp [habort]
  | cons n0 tl =>
    cases tl with
    | nil => simp [habort]
    | cons n1 tl2 =>
      by_cases hnz : n0 ≠ 0 ∨ n1 ≠ 0
      · simp [hnz, bne_iff_ne]
      · push_neg at hnz
        simp [hnz.1, hnz.2]

/-- Witness for C8: the delimited strategy aborts on `ABC,12.5,xyz,7.7` and
the free-text scan supplies the coordinates. -/
theorem csv_abort_falls_through_witness :
    SX.parse_gps_data ("ABC,12.5,xyz,7.7".toList) 3 =
      some { busId := JVal.str ("ABC".toList), latitude := 25/2, longitude := 77/10,
             signalStrength := 85, timestamp := 3 } :=
  (csv_abort_falls_through ("ABC,12.5,xyz,7.7".toList) 3
    (by decide) (by decide) (by decide)).trans (by decide)

/-!
## Claim C10
-/

/-- Claim C10: when the structured-object strategy succeeds but leaves
latitude `0`, the free-text numeric scan still runs over the whole raw
payload and overwrites both coordinates with the first two numerals found —
the fallback chain is not "first successful strategy wins" in this case. -/
theorem json_zero_latitude_rescan (raw : Chars) (t : Nat) (g2 : SX.GpsData)
    (n0 n1 : ℚ) (ns : List ℚ)
    (hb : (pyStrip raw).contains '\x7b' = true)
    (hc : (pyStrip raw).contains '\x7d' = true)
    (hA2 : SX.attempt2 (pyStrip raw) (SX.defaultGps t) = (g2, true))
    (hlat : g2.latitude = 0)
    (hscan : scanNumbers (pyStrip raw) = n0 :: n1 :: ns) :
    SX.parse_gps_data raw t =
      if n0 ≠ 0 ∨ n1 ≠ 0 then some { g2 with latitude := n0, longitude := n1 }
      else none := by
  unfold SX.parse_gps_data SX.decodeAttempts SX.attempt3
  dsimp only []
  rw [hb, hc]
  simp only [Bool.not_true, Bool.and_false, Bool.false_and, Bool.and_true, Bool.true_and,
    Bool.not_false, if_false, if_true, Bool.false_eq_true, ite_false, ite_true]
  rw [hA2]
  dsimp only []
  rw [hlat]
  simp only [beq_self_eq_true, Bool.or_true, if_true, ite_true]
  rw [hscan]
  by_cases hnz : n0 ≠ 0 ∨ n1 ≠ 0
  · simp [hnz, bne_iff_ne]
  · push_neg at hnz
    simp [hnz.1, hnz.2]

/-- Witness for C10: in `x1.5y{"latitude":0.0,"longitude":5.5}` the embedded
object parses with latitude `0`, and the rescan replaces the coordinate pair
`(0, 5.5)` by the first two numerals `(1.5, 0)` of the payload. -/
theorem json_zero_latitude_rescan_witness :
    SX.parse_gps_data ("x1.5y\x7b\"latitude\":0.0,\"longitude\":5.5\x7d".toList) 9 =
      some { busId := JVal.str ("BUS001".toList), latitude := 3/2, longitude := 0,
             signalStrength := 85, timestamp := 9 } :=
  (json_zero_latitude_rescan ("x1.5y\x7b\"latitude\":0.0,\"longitude\":5.5\x7d".toList) 9
    { busId := JVal.str ("BUS001".toList), latitude := 0, longitude := 11/2,
      signalStrength := 85, timestamp := 9 }
    (3/2) 0 [11/2]
    (by decide) (by decide) (by decide) (by decide) (by decide)).trans (by decide)

/-!
## Claim C1
-/

theorem countP_replicate_aux {α : Type} (p : α → Bool) (a : α) (n : Nat) :
    (List.replicate n a).countP p = if p a then n else 0 := by
  induction n with
  | zero => simp
  | succ k ih =>
    rw [List.replicate_succ, List.countP_cons]
    by_cases h : p a
    · simp [h] at ih ⊢; omega
    · simp [h] at ih ⊢

/-- Once `last_data` holds the record a payload decodes to, every further
tick with that payload and receipt time is suppressed as a duplicate. -/
theorem pipeRun_all_duplicate (p : Chars) (t : Nat) (o : SX.HttpOutcome) (g : SX.GpsData)
    (hg : SX.parse_gps_data p t = some g) :
    ∀ (m : Nat) (st : SX.PipeState), st.lastData = some g →
      SX.pipeRun st (List.replicate m (some p, t, o)) =
        (st, List.replicate m SX.TickResult.duplicate) := by
  intro m
  induction m with
  | zero => intro st h; simp [SX.pipeRun]
  | succ k ih =>
    intro st h
    have hstep : SX.pipeStep st (some p) t o = (st, SX.TickResult.duplicate) := by
      unfold SX.pipeStep
      dsimp only []
      rw [hg]
      dsimp only []
      rw [if_pos h]
    rw [List.replicate_succ]
    unfold SX.pipeRun
    rw [hstep]
    dsimp only []
    rw [ih st h]
    simp [List.replicate_succ]

/-- Counterexample to claim C1 as stated: the identical payload
`BUS001,40.7128,-74.0060` arriving twice, at receipt seconds 1 and 2, is
forwarded twice — the records differ in the `timestamp` field the decoder
stamps at receipt, so the duplicate filter admits both. -/
theorem identical_payloads_twice_forwarded_cex :
    ((SX.pipeRun { lastData := none, dataCount := 0 }
        [(some ("BUS001,40.7128,-74.0060".toList), 1, SX.HttpOutcome.response 200),
          (some ("BUS001,40.7128,-74.0060".toList), 2, SX.HttpOutcome.response 200)]).2.countP
        SX.isForwarded) = 2 := by decide

/-- Claim C1 (amended): a run of N ≥ 2 identical consecutive payloads that
decode successfully and share the same receipt timestamp, against a collector
that acknowledges with status 200, is forwarded exactly once — the first
record is sent, every later one is suppressed because no field of the
candidate differs from the last accepted record. -/
theorem changefilter_run_forwards_once (p : Chars) (t : Nat) (g : SX.GpsData) (n : Nat)
    (hg : SX.parse_gps_data p t = some g) (hn : 2 ≤ n) (st : SX.PipeState)
    (hfresh : st.lastData ≠ some g) :
    ((SX.pipeRun st (List.replicate n (some p, t, SX.HttpOutcome.response 200))).2.countP
        SX.isForwarded = 1)
    ∧ (SX.pipeRun st
        (List.replicate n (some p, t, SX.HttpOutcome.response 200))).1.lastData = some g := by
  cases n with
  | zero => omega
  | succ k =>
    have hstep : SX.pipeStep st (some p) t (SX.HttpOutcome.response 200) =
        ({ lastData := some g, dataCount := st.dataCount + 1 }, SX.TickResult.forwarded g) := by
      unfold SX.pipeStep
      dsimp only []
      rw [hg]
      dsimp only []
      rw [if_neg hfresh]
      simp [SX.send_to_server]
    rw [List.replicate_succ]
    unfold SX.pipeRun
    rw [hstep]
    dsimp only []
    rw [pipeRun_all_duplicate p t (SX.HttpOutcome.response 200) g hg k
      { lastData := some g, dataCount := st.dataCount + 1 } rfl]
    constructor
    · simp [List.countP_cons, countP_replicate_aux, SX.isForwarded]
    · rfl

/-- Witness for C1 at three repeats of `BUS001,40.7128,-74.0060` with a fixed
receipt timestamp. -/
theorem changefilter_run_forwards_once_witness :
    ((SX.pipeRun { lastData := none, dataCount := 0 }
        (List.replicate 3 (some ("BUS001,40.7128,-74.0060".toList), 4,
          SX.HttpOutcome.response 200))).2.countP SX.isForwarded = 1)
    ∧ (SX.pipeRun { lastData := none, dataCount := 0 }
        (List.replicate 3 (some ("BUS001,40.7128,-74.0060".toList), 4,
          SX.HttpOutcome.response 200))).1.lastData =
      some { busId := JVal.str ("BUS001".toList), latitude := 50891/1250,
             longitude := -37003/500, signalStrength := 85, timestamp := 4 } :=
  changefilter_run_forwards_once ("BUS001,40.7128,-74.0060".toList) 4
    { busId := JVal.str ("BUS001".toList), latitude := 50891/1250,
      longitude := -37003/500, signalStrength := 85, timestamp := 4 }
    3 (by decide) (by decide) { lastData := none, dataCount := 0 } (by decide)

/-!
## Claim C2
-/

theorem trySetLat_tset (d : List (Chars × JVal)) (t : Nat) (g : SX.GpsData) :
    SX.trySetLat d (SX.tset t g) = (SX.trySetLat d g).map (SX.tset t) := by
  rcases g with ⟨bi, la, lo, sg, ts⟩
  unfold SX.trySetLat SX.tset
  dsimp only []
  split
  · cases pyFloatOfJVal (jGetD d ("latitude".toList)) <;> rfl
  · rfl

theorem trySetLng_tset (d : List (Chars × JVal)) (t : Nat) (g : SX.GpsData) :
    SX.trySetLng d (SX.tset t g) = (SX.trySetLng d g).map (SX.tset t) := by
  rcases g with ⟨bi, la, lo, sg, ts⟩
  unfold SX.trySetLng SX.tset
  dsimp only []
  split
  · cases pyFloatOfJVal (jGetD d ("longitude".toList)) <;> rfl
  · rfl

theorem trySetSig_tset (d : List (Chars × JVal)) (t : Nat) (g : SX.GpsData) :
    SX.trySetSig d (SX.tset t g) = (SX.trySetSig d g).map (SX.tset t) := by
  rcases g with ⟨bi, la, lo, sg, ts⟩
  unfold SX.trySetSig SX.tset
  dsimp only []
  split
  · cases pyIntOfJVal (jGetD d ("signalStrength".toList)) <;> rfl
  · rfl

theorem attempt2_tset (s : Chars) (g : SX.GpsData) (t : Nat) :
    SX.attempt2 s (SX.tset t g) = (SX.tset t (SX.attempt2 s g).1, (SX.attempt2 s g).2) := by
  unfold SX.attempt2
  dsimp only []
  cases hj : jsonLoads ((s.drop (firstIdxD s '\x7b')).take (lastIdxD s '\x7d' + 1 - firstIdxD s '\x7b')) with
  | none => rfl
  | some d =>
    dsimp only []
    have e1 : (if jHas d ("busID".toList) then { SX.tset t g with busId := jGetD d ("busID".toList) } else SX.tset t g)
        = SX.tset t (if jHas d ("busID".toList) then { g with busId := jGetD d ("busID".toList) } else g) := by
      split
      · cases g; rfl
      · rfl
    dsimp only [] at e1
    rw [e1]
    generalize (if jHas d ("busID".toList) = true then { g with busId := jGetD d ("busID".toList) } else g) = gA
    have e2 : (if jHas d ("busId".toList) then { SX.tset t gA with busId := jGetD d ("busId".toList) } else SX.tset t gA)
        = SX.tset t (if jHas d ("busId".toList) then { gA with busId := jGetD d ("busId".toList) } else gA) := by
      split
      · cases gA; rfl
      · rfl
    dsimp only [] at e2
    rw [e2]
    generalize (if jHas d ("busId".toList) = true then { gA with busId := jGetD d ("busId".toList) } else gA) = gB
    rw [trySetLat_tset]
    cases hL : SX.trySetLat d gB with
    | none => rfl
    | some g3 =>
      dsimp only [Option.map]
      rw [trySetLng_tset]
      cases hM : SX.trySetLng d g3 with
      | none => rfl
      | some g4 =>
        dsimp only [Option.map]
        rw [trySetSig_tset]
        cases hS : SX.trySetSig d g4 with
        | none => rfl
        | some g5 => rfl

theorem attempt1_tset (s : Chars) (g : SX.GpsData) (t : Nat) :
    SX.attempt1 s (SX.tset t g) = (SX.tset t (SX.attempt1 s g).1, (SX.attempt1 s g).2) := by
  rcases g with ⟨bi, la, lo, sg, ts⟩
  unfold SX.attempt1 SX.tset
  dsimp only []
  repeat' split
  all_goals rfl

theorem attempt3_tset (s : Chars) (g : SX.GpsData) (b : Bool) (t : Nat) :
    SX.attempt3 s (SX.tset t g, b) = (SX.tset t (SX.attempt3 s (g, b)).1, (SX.attempt3 s (g, b)).2) := by
  rcases g with ⟨bi, la, lo, sg, ts⟩
  unfold SX.attempt3 SX.tset
  dsimp only []
  repeat' split
  all_goals rfl

theorem parse_gps_data_tset (raw : Chars) (t : Nat) :
    SX.parse_gps_data raw t = (SX.parse_gps_data raw 0).map (SX.tset t) := by
  unfold SX.parse_gps_data SX.decodeAttempts
  dsimp only []
  have hd : SX.defaultGps t = SX.tset t (SX.defaultGps 0) := rfl
  rw [hd]
  have h1 : (if (pyStrip raw).contains ',' && !(pyStrip raw).contains '\x7b' then
        SX.attempt1 (pyStrip raw) (SX.tset t (SX.defaultGps 0)) else (SX.tset t (SX.defaultGps 0), false))
      = (SX.tset t (if (pyStrip raw).contains ',' && !(pyStrip raw).contains '\x7b' then
          SX.attempt1 (pyStrip raw) (SX.defaultGps 0) else (SX.defaultGps 0, false)).1,
         (if (pyStrip raw).contains ',' && !(pyStrip raw).contains '\x7b' then
          SX.attempt1 (pyStrip raw) (SX.defaultGps 0) else (SX.defaultGps 0, false)).2) := by
    split
    · rw [attempt1_tset]
    · rfl
  rw [h1]
  generalize (if ((pyStrip raw).contains ',' && !(pyStrip raw).contains '\x7b') = true then
      SX.attempt1 (pyStrip raw) (SX.defaultGps 0) else (SX.defaultGps 0, false)) = r1
  have h2 : (if !r1.2 && (pyStrip raw).contains '\x7b' && (pyStrip raw).contains '\x7d' then
        SX.attempt2 (pyStrip raw) (SX.tset t r1.1) else (SX.tset t r1.1, r1.2))
      = (SX.tset t (if !r1.2 && (pyStrip raw).contains '\x7b' && (pyStrip raw).contains '\x7d' then
          SX.attempt2 (pyStrip raw) r1.1 else r1).1,
         (if !r1.2 && (pyStrip raw).contains '\x7b' && (pyStrip raw).contains '\x7d' then
          SX.attempt2 (pyStrip raw) r1.1 else r1).2) := by
    split
    · rw [attempt2_tset]
    · rfl
  rw [h2]
  generalize (if (!r1.2 && (pyStrip raw).contains '\x7b' && (pyStrip raw).contains '\x7d') = true then
      SX.attempt2 (pyStrip raw) r1.1 else r1) = r2
  rw [attempt3_tset]
  generalize SX.attempt3 (pyStrip raw) (r2.1, r2.2) = r3
  rcases r3 with ⟨g3, b3⟩
  rcases g3 with ⟨bi, la, lo, sg, ts⟩
  cases b3 <;> by_cases hla : la = 0 <;> by_cases hlo : lo = 0 <;>
    simp [SX.tset, hla, hlo, bne_iff_ne]

/-- Counterexample to claim C2 as stated: re-decoding the identical payload
bytes at receipt seconds 1 and 2 yields records that are not identical in
every field — the `timestamp` field holds the receipt time of each run. -/
theorem decode_rerun_cex :
    SX.parse_gps_data ("BUS001,40.7128,-74.0060".toList) 1 ≠
      SX.parse_gps_data ("BUS001,40.7128,-74.0060".toList) 2 := by decide

/-- Claim C2 (amended): the decode chain is deterministic in the payload
bytes — two runs on the same bytes agree on every field except the receipt
timestamp, which each run sets to its own receipt time; two runs with the
same receipt time yield records identical in every field. -/
theorem decode_deterministic_modulo_timestamp (raw : Chars) (t1 t2 : Nat) :
    ((SX.parse_gps_data raw t1).map SX.stripTime =
      (SX.parse_gps_data raw t2).map SX.stripTime)
    ∧ (t1 = t2 → SX.parse_gps_data raw t1 = SX.parse_gps_data raw t2) := by
  constructor
  · rw [parse_gps_data_tset raw t1, parse_gps_data_tset raw t2]
    cases SX.parse_gps_data raw 0 with
    | none => rfl
    | some g => rfl
  · intro h
    rw [h]

/-- Witness for C2: the two-field payload decoded at unequal and at equal
receipt times. -/
theorem decode_deterministic_modulo_timestamp_witness :
    ((SX.parse_gps_data ("40.7128,-74.0060".toList) 5).map SX.stripTime =
      (SX.parse_gps_data ("40.7128,-74.0060".toList) 6).map SX.stripTime)
    ∧ SX.parse_gps_data ("40.7128,-74.0060".toList) 5 =
        SX.parse_gps_data ("40.7128,-74.0060".toList) 5 :=
  ⟨(decode_deterministic_modulo_timestamp ("40.7128,-74.0060".toList) 5 6).1,
    (decode_deterministic_modulo_timestamp ("40.7128,-74.0060".toList) 5 5).2 rfl⟩

/-!
## Claim C3
-/

/-- Counterexample to claim C3 as stated: a `201 Created` response is a 2xx
success, yet `send_to_server` reports failure — the source compares the
status to `200` exactly. -/
theorem send_2xx_not_ack_cex :
    SX.send_to_server (SX.defaultGps 0) (SX.HttpOutcome.response 201) = false ∧
    200 ≤ 201 ∧ 201 < 300 :=
  ⟨by decide, by decide, by decide⟩

/-- Claim C3 (amended): `send_to_server` returns Ack (`True`) if and only if
the collector answers with status exactly 200; a raised request error
(timeout, connection failure) or any other status yields `False`; and the
loop's "last successfully sent" reference changes only when a send was
acknowledged, taking the acknowledged record as its new value. -/
theorem send_ack_iff_200 :
    (∀ (g : SX.GpsData) (o : SX.HttpOutcome),
        SX.send_to_server g o = true ↔ o = SX.HttpOutcome.response 200)
    ∧ (∀ (st : SX.PipeState) (pay : Option Chars) (t : Nat) (o : SX.HttpOutcome),
        (SX.pipeStep st pay t o).1.lastData = st.lastData ∨
        (∃ raw g, pay = some raw ∧ SX.parse_gps_data raw t = some g ∧
          SX.send_to_server g o = true ∧
          (SX.pipeStep st pay t o).1.lastData = some g)) := by
  constructor
  · intro g o
    cases o with
    | response s => simp [SX.send_to_server, beq_iff_eq]
    | requestError => simp [SX.send_to_server]
  · intro st pay t o
    cases pay with
    | none => left; rfl
    | some raw =>
      cases hparse : SX.parse_gps_data raw t with
      | none => left; simp [SX.pipeStep, hparse]
      | some g =>
        by_cases hd : st.lastData = some g
        · left; simp [SX.pipeStep, hparse, hd]
        · cases hsend : SX.send_to_server g o with
          | false => left; simp [SX.pipeStep, hparse, hd, hsend]
          | true =>
            right
            exact ⟨raw, g, rfl, hparse, hsend, by simp [SX.pipeStep, hparse, hd, hsend]⟩

/-- Witness for C3: a 200 response to the default record is acknowledged. -/
theorem send_ack_iff_200_witness :
    SX.send_to_server (SX.defaultGps 0) (SX.HttpOutcome.response 200) = true :=
  (send_ack_iff_200.1 (SX.defaultGps 0) (SX.HttpOutcome.response 200)).mpr rfl

/-!
## Claim C5
-/

/-- Claim C5: the loop never terminates on decode or send errors.  The run
over any finite tick schedule produces one outcome per tick (no tick aborts
the loop); a tick whose payload fails to decode is absorbed as a
`decodeError` diagnostic with the state unchanged; a tick whose send fails is
absorbed as a `sendFailed` diagnostic, leaving `last_data` unchanged so the
next decoded record is retried; only the startup checks (collector
unreachable, no radio source) keep the loop from running at all. -/
theorem loop_absorbs_decode_and_send_errors :
    (∀ (st : SX.PipeState) (ticks : List (Option Chars × Nat × SX.HttpOutcome)),
        (SX.pipeRun st ticks).2.length = ticks.length)
    ∧ (∀ (st : SX.PipeState) (raw : Chars) (t : Nat) (o : SX.HttpOutcome),
        SX.parse_gps_data raw t = none →
        SX.pipeStep st (some raw) t o = (st, SX.TickResult.decodeError))
    ∧ (∀ (st : SX.PipeState) (raw : Chars) (t : Nat) (o : SX.HttpOutcome) (g : SX.GpsData),
        SX.parse_gps_data raw t = some g → st.lastData ≠ some g →
        SX.send_to_server g o = false →
        SX.pipeStep st (some raw) t o =
          ({ st with dataCount := st.dataCount + 1 }, SX.TickResult.sendFailed g))
    ∧ ((∀ b, SX.startupRuns false b = false) ∧ SX.startupRuns true true = true) := by
  refine ⟨?_, ?_, ?_, ⟨fun b => rfl, rfl⟩⟩
  · intro st ticks
    induction ticks generalizing st with
    | nil => simp [SX.pipeRun]
    | cons tick rest ih =>
      rcases tick with ⟨p, t, o⟩
      unfold SX.pipeRun
      dsimp only []
      simp [ih]
  · intro st raw t o h
    unfold SX.pipeStep
    dsimp only []
    rw [h]
  · intro st raw t o g hparse hd hsend
    unfold SX.pipeStep
    dsimp only []
    rw [hparse]
    dsimp only []
    rw [if_neg hd, hsend]
    simp

/-- Witness for C5: an undecodable payload is absorbed with the state kept,
and a failed send is absorbed with `last_data` kept. -/
theorem loop_absorbs_decode_and_send_errors_witness :
    SX.pipeStep { lastData := none, dataCount := 0 }
        (some ("garbage text no numbers".toList)) 0 (SX.HttpOutcome.response 200) =
      ({ lastData := none, dataCount := 0 }, SX.TickResult.decodeError) ∧
    SX.pipeStep { lastData := none, dataCount := 0 }
        (some ("40.7128,-74.0060".toList)) 2 SX.HttpOutcome.requestError =
      ({ lastData := none, dataCount := 1 },
        SX.TickResult.sendFailed
          { busId := JVal.str ("BUS001".toList), latitude := 50891/1250,
            longitude := -37003/500, signalStrength := 85, timestamp := 2 }) :=
  ⟨loop_absorbs_decode_and_send_errors.2.1 { lastData := none, dataCount := 0 }
      ("garbage text no numbers".toList) 0 (SX.HttpOutcome.response 200) (by decide),
    loop_absorbs_decode_and_send_errors.2.2.1 { lastData := none, dataCount := 0 }
      ("40.7128,-74.0060".toList) 2 SX.HttpOutcome.requestError
      { busId := JVal.str ("BUS001".toList), latitude := 50891/1250,
        longitude := -37003/500, signalStrength := 85, timestamp := 2 }
      (by decide) (by decide) (by decide)⟩

/-!
## Claim C7
-/

/-- Counterexample to claim C7 as stated: `convert_to_degrees("01131.000","W")`
is `-(1 + 131/60) = -3.18333...`, because the converter always takes a 2-digit
degree prefix (`int(raw[:2]) = 1`, minutes `131.0`) — it is not within `1e-4`
of the claimed `-11.5167` (the value a 3-digit-degree longitude parse would
give). -/
theorem convert_longitude_cex :
    NEWPy.convert_to_degrees ("01131.000".toList) ("W".toList) = some (-(191/60)) ∧
    ¬((-(1/10000) : ℚ) ≤ -(191/60) - (-11.5167) ∧
      (-(191/60) - (-11.5167) : ℚ) ≤ 1/10000) :=
  ⟨by decide, by decide⟩

/-- Claim C7 (amended): whenever the 2-character prefix parses as an integer
`d` and the remainder parses as a float `m`, the converter returns
`d + m/60`, negated exactly for hemisphere `S` or `W`; in particular
`convert("4807.038","N") = 48.1173` (within `1e-4`, here exactly) and
`convert("01131.000","W") = -3.1833` (within `1e-4`), not `-11.5167`: the
2-digit degree rule misreads 3-digit-degree longitudes. -/
theorem convert_to_degrees_formula :
    (∀ (raw direction : Chars) (d : Int) (m : ℚ),
        pyInt (raw.take 2) = some d → pyFloat (raw.drop 2) = some m →
        NEWPy.convert_to_degrees raw direction =
          some (if direction = "S".toList ∨ direction = "W".toList
            then -((d : ℚ) + m / 60) else (d : ℚ) + m / 60))
    ∧ NEWPy.convert_to_degrees ("4807.038".toList) ("N".toList) = some (481173/10000)
    ∧ ((-(1/10000) : ℚ) ≤ 481173/10000 - 48.1173 ∧ (481173/10000 - 48.1173 : ℚ) ≤ 1/10000)
    ∧ NEWPy.convert_to_degrees ("01131.000".toList) ("W".toList) = some (-(191/60))
    ∧ ((-(1/10000) : ℚ) ≤ -(191/60) - (-3.1833) ∧ (-(191/60) - (-3.1833) : ℚ) ≤ 1/10000) := by
  refine ⟨?_, by decide, by decide, by decide, by decide⟩
  intro raw direction d m h1 h2
  unfold NEWPy.convert_to_degrees
  rw [h1, h2]

/-- Witness for C7 at the latitude string of the spec's example. -/
theorem convert_to_degrees_formula_witness :
    NEWPy.convert_to_degrees ("4807.038".toList) ("N".toList) =
      some (if ("N".toList = "S".toList ∨ "N".toList = "W".toList)
        then -(((48 : Int) : ℚ) + (3519/500) / 60) else ((48 : Int) : ℚ) + (3519/500) / 60) :=
  convert_to_degrees_formula.1 ("4807.038".toList) ("N".toList) 48 (3519/500)
    (by decide) (by decide)

/-!
## Claim C6
-/

theorem splitChars_ne_nil (l : Chars) (sep : Char) : splitChars l sep ≠ [] := by
  cases l with
  | nil => simp [splitChars]
  | cons c rest =>
    unfold splitChars
    dsimp only []
    split
    · simp
    · split <;> simp

theorem splitChars_head_takeWhile (l : Chars) (sep : Char) :
    (splitChars l sep).getD 0 [] = l.takeWhile (fun c => !(c == sep)) := by
  induction l with
  | nil => simp [splitChars]
  | cons c rest ih =>
    unfold splitChars
    dsimp only []
    by_cases hc : c = sep
    · simp [hc, List.takeWhile]
    · rw [if_neg hc]
      rcases hsp : splitChars rest sep with _ | ⟨h0, t⟩
      · exact absurd hsp (splitChars_ne_nil rest sep)
      · rw [hsp] at ih
        simp only [List.getD_cons_zero] at ih
        have hb : (c == sep) = false := by simp [hc]
        simp [List.takeWhile, hc, hb, ih]

theorem splitChars_field0_front (l : Chars) (sep : Char) :
    ∃ r, l = (splitChars l sep).getD 0 [] ++ r := by
  rw [splitChars_head_takeWhile]
  exact ⟨l.dropWhile (fun c => !(c == sep)),
    (List.takeWhile_append_dropWhile (fun c => !(c == sep)) l).symm⟩

/-- Counterexample to claim C6 as stated: this GGA line has fix quality `1`
and nonempty coordinate fields, yet `parse_nmea` returns `None`: its
coordinate converter demands strings longer than 7 characters, and
`4807.03` (7 characters) converts to `None`. -/
theorem gga_short_coordinate_cex :
    SimpleTx.parse_nmea ("$GPGGA,123519,4807.03,N,01131.00,E,1,08".toList) = none ∧
    (splitChars ("$GPGGA,123519,4807.03,N,01131.00,E,1,08".toList) ',').getD 6 [] = "1".toList ∧
    "1".toList ≠ "0".toList ∧
    (splitChars ("$GPGGA,123519,4807.03,N,01131.00,E,1,08".toList) ',').getD 2 [] ≠ [] ∧
    (splitChars ("$GPGGA,123519,4807.03,N,01131.00,E,1,08".toList) ',').getD 4 [] ≠ [] :=
  ⟨by decide, by decide, by decide, by decide, by decide⟩

/-- Claim C6 (amended): `parse_nmea` returns `None` for every line that does
not start with one of the recognized markers `$GPGGA` / `$GPRMC`, and for
every GGA line whose fix-quality field is `"0"` or whose latitude/longitude
fields are empty; a GGA line with a non-zero fix quality yields a record with
`fix = true` provided additionally that its coordinate fields convert
successfully to nonzero coordinates (the converter needs more than 7
characters per field) and its satellite field, when present and nonempty,
parses as an integer. -/
theorem parse_nmea_classification :
    (∀ l : Chars, l.take 6 ≠ "$GPGGA".toList → l.take 6 ≠ "$GPRMC".toList →
      SimpleTx.parse_nmea l = none)
    ∧ (∀ l : Chars, (splitChars l ',').getD 0 [] = "$GPGGA".toList →
        ((splitChars l ',').getD 6 [] = "0".toList ∨ (splitChars l ',').getD 2 [] = [] ∨
          (splitChars l ',').getD 4 [] = []) →
        SimpleTx.parse_nmea l = none)
    ∧ (∀ (l : Chars) (fq : Chars) (la lo : ℚ) (sat : Int),
        (splitChars l ',').getD 0 [] = "$GPGGA".toList →
        (splitChars l ',').get? 6 = some fq → fq ≠ "0".toList →
        (splitChars l ',').getD 2 [] ≠ [] → (splitChars l ',').getD 4 [] ≠ [] →
        SimpleTx.convert_to_degrees ((splitChars l ',').getD 2 [])
          ((splitChars l ',').getD 3 []) = .ok (some la) → la ≠ 0 →
        SimpleTx.convert_to_degrees ((splitChars l ',').getD 4 [])
          ((splitChars l ',').getD 5 []) = .ok (some lo) → lo ≠ 0 →
        (if 7 < (splitChars l ',').length ∧ (splitChars l ',').getD 7 [] ≠ [] then
          pyInt ((splitChars l ',').getD 7 []) else some 0) = some sat →
        SimpleTx.parse_nmea l =
          some { latitude := la, longitude := lo, time := (splitChars l ',').getD 1 []
                 fix := true, satellites := some sat, speed := none }) := by
  refine ⟨?_, ?_, ?_⟩
  · intro l hG hR
    unfold SimpleTx.parse_nmea
    dsimp only []
    split
    · rfl
    · have hGf : ¬((splitChars l ',').getD 0 [] = "$GPGGA".toList ∧ 6 ≤ (splitChars l ',').length) := by
        rintro ⟨h0, -⟩
        obtain ⟨r, hr⟩ := splitChars_field0_front l ','
        rw [h0] at hr
        apply hG
        rw [hr]
        simp
      have hRf : ¬((splitChars l ',').getD 0 [] = "$GPRMC".toList ∧ 7 ≤ (splitChars l ',').length) := by
        rintro ⟨h0, -⟩
        obtain ⟨r, hr⟩ := splitChars_field0_front l ','
        rw [h0] at hr
        apply hR
        rw [hr]
        simp
      rw [if_neg hGf, if_neg hRf]
  · intro l h0 hbad
    have hhead : l.headD ' ' = '$' := by
      obtain ⟨r, hr⟩ := splitChars_field0_front l ','
      rw [h0] at hr
      rw [hr]
      rfl
    unfold SimpleTx.parse_nmea
    dsimp only []
    rw [if_neg (by rw [hhead]; exact fun h => h rfl)]
    by_cases hlen : 6 ≤ (splitChars l ',').length
    · rw [if_pos ⟨h0, hlen⟩]
      cases h6 : (splitChars l ',').get? 6 with
      | none => rfl
      | some fq =>
        dsimp only []
        have hfq : fq = (splitChars l ',').getD 6 [] := by
          simp [List.getD, ← List.get?_eq_getElem?, h6]
        rw [if_pos]
        rw [hfq]
        exact hbad
    · rw [if_neg (fun hp => hlen hp.2)]
      rw [if_neg (fun hp => by rw [h0] at hp; exact absurd hp.1 (by decide))]
  · intro l fq la lo sat h0 h6 hfq h2 h4 hcla hla0 hclo hlo0 hsat
    have hhead : l.headD ' ' = '$' := by
      obtain ⟨r, hr⟩ := splitChars_field0_front l ','
      rw [h0] at hr
      rw [hr]
      rfl
    have hlen : 6 ≤ (splitChars l ',').length := by
      by_contra hle
      push_neg at hle
      rw [List.get?_eq_none.mpr (by omega)] at h6
      exact Option.noConfusion h6
    unfold SimpleTx.parse_nmea
    dsimp only []
    rw [if_neg (by rw [hhead]; exact fun h => h rfl)]
    rw [if_pos ⟨h0, hlen⟩]
    rw [h6]
    dsimp only []
    have hfq6 : fq = (splitChars l ',').getD 6 [] := by
      simp [List.getD, ← List.get?_eq_getElem?, h6]
    rw [if_neg (fun h => by
      rcases h with h | h | h
      · exact hfq (hfq6 ▸ h)
      · exact h2 h
      · exact h4 h)]
    rw [hcla]
    dsimp only []
    rw [hclo]
    dsimp only []
    rw [if_pos ⟨hla0, hlo0⟩]
    rw [hsat]

/-- Witness for C6 at the spec's GGA sentence (nonzero fix quality, valid
coordinate fields). -/
theorem parse_nmea_classification_witness :
    SimpleTx.parse_nmea
        ("$GPGGA,123519,4807.038,N,01131.000,E,1,08,0.9,545.4,M,46.9,M,,*47".toList) =
      some { latitude := 481173/10000, longitude := 191/60, time := "123519".toList
             fix := true, satellites := some 8, speed := none } :=
  (parse_nmea_classification.2.2
    ("$GPGGA,123519,4807.038,N,01131.000,E,1,08,0.9,545.4,M,46.9,M,,*47".toList)
    ("1".toList) (481173/10000) (191/60) 8
    (by decide) (by decide) (by decide) (by decide) (by decide)
    (by rfl) (by decide) (by rfl) (by decide) (by decide)).trans (by decide)
